import Mathlib

/-!
Shallow embedding of `webapp/hedis_measure.py`: the four HEDIS measure
calculators (BCS, COL, CDC, CBP).

Modelling conventions, applied uniformly:
* Time is modelled as integer days on an abstract timeline.
  `relativedelta(years = n)` is modelled as `365 * n` days and
  `relativedelta(months = n)` as `30 * n` days; no claim below depends on
  calendar-exact month or year lengths.
* A date string from a record is modelled by `DateVal`: `missing` for an
  absent or empty string, `malformed` for a string
  `datetime.fromisoformat` rejects, and `valid t` for a string parsing to
  the timeline point `t` (timezone already stripped, as the source does
  with `.replace(tzinfo=None)`).
* `requests.get` plus bundle decoding is modelled by `Repo`: each query
  function returns `none` when the source would take its
  `'error' in bundle or 'entry' not in bundle` early exit, and
  `some entries` when the bundle has an `entry` list.
* Python float `rate` arithmetic is modelled over `ℚ`; `round(x, 2)` is
  modelled as rational rounding to 2 decimals with ties going to the even
  last digit, matching round-half-even on exactly representable values.
* The cosmetic fields (`name` formatting, the `rate_display` percent
  string, `note`) carry no logic; the dict key sets of each returned
  result are transcribed separately as `List String` constants.
-/

/-- Result of parsing a record's date string, see the conventions above. -/
inductive DateVal where
  | missing
  | malformed
  | valid (t : Int)
deriving DecidableEq, Repr

/-- A FHIR Patient resource, restricted to the fields the source reads:
`id`, `gender`, `birthDate`. -/
structure Patient where
  id : String
  gender : String
  birthDate : DateVal
deriving DecidableEq, Repr

/-- A FHIR Condition resource, restricted to what the source reads: the
list of `code.coding[*].code` strings. -/
abbrev ConditionCodes := List String

/-- A FHIR Claim resource, restricted to what the source reads: `id`,
`created`, and for each `item` the list of its
`productOrService.coding[*].code` strings. -/
structure ClaimRes where
  id : String
  created : DateVal
  items : List (List String)
deriving DecidableEq, Repr

/-- The FHIR server as seen through `query_fhir`.  `activeConditions`
models the `Condition?patient=..&clinical-status=active` query used by
BCS `has_exclusion`; `conditions` models the unfiltered
`Condition?patient=..` query used by CDC `has_diabetes` and CBP
`has_hypertension`; `claims` models `Claim?patient=..`.  `none` models
the source's early exit when the bundle carries an `error` key or no
`entry` list. -/
structure Repo where
  activeConditions : String → Option (List ConditionCodes)
  conditions : String → Option (List ConditionCodes)
  claims : String → Option (List ClaimRes)

/-- Model of Python `str.lower()`, written over the character list so
that it reduces inside the kernel. -/
def lower_str (s : String) : String := ⟨s.data.map Char.toLower⟩

/-- Model of Python `str.startswith(pre)`, written over the character
lists so that it reduces inside the kernel. -/
def starts_with (s pre : String) : Bool := pre.data.isPrefixOf s.data

/-- Model of Python `s.split('/', 1)[1]` for a string known to start
with the 8-character `Patient/`, written over the character list. -/
def drop_str (s : String) (n : Nat) : String := ⟨s.data.drop n⟩

/-- Shared body of the four identical `get_patient_age` methods: `0` when
the birth-date string is absent or unparseable (the `except` branch),
whole years between birth date and measurement end otherwise. -/
def get_patient_age (measurementEnd : Int) : DateVal → Int
  | DateVal.valid t => (measurementEnd - t) / 365
  | _ => 0

/-- Shared body of the `if patient_id.startswith('Patient/'): split` lines
in the COL, CDC and CBP query helpers. -/
def stripPatientRef (patient_id : String) : String :=
  if starts_with patient_id "Patient/" then drop_str patient_id 8 else patient_id

/-- Rational model of Python `round` to an integer: round half to even. -/
def roundHalfEven (q : ℚ) : Int :=
  if q - ⌊q⌋ < 1/2 then ⌊q⌋
  else if 1/2 < q - ⌊q⌋ then ⌊q⌋ + 1
  else if ⌊q⌋ % 2 = 0 then ⌊q⌋ else ⌊q⌋ + 1

/-- Rational model of Python `round(x, 2)`. -/
def round2 (q : ℚ) : ℚ :=
  (roundHalfEven (q * 100) : ℚ) / 100

/-- `MAMMOGRAPHY_CODES` from the source. -/
def MAMMOGRAPHY_CODES : List String :=
  ["77065", "77066", "77067", "77063", "77061", "77062"]

/-- `BILATERAL_MASTECTOMY_CODES` from the source. -/
def BILATERAL_MASTECTOMY_CODES : List String := ["Z90.13"]

/-- `UNILATERAL_MASTECTOMY_CODES` from the source. -/
def UNILATERAL_MASTECTOMY_CODES : List String := ["Z90.11", "Z90.12"]

/-- State of a `HEDISBreastCancerScreening` instance:
`measurement_end = datetime.now()` and
`measurement_start = measurement_end - relativedelta(months=27)`. -/
structure HEDISBreastCancerScreening where
  measurementEnd : Int
  measurementStart : Int
deriving DecidableEq, Repr

/-- The `__init__` of `HEDISBreastCancerScreening` (27 months modelled as
810 days). -/
def HEDISBreastCancerScreening.init (now : Int) : HEDISBreastCancerScreening :=
  ⟨now, now - 810⟩

/-- `HEDISBreastCancerScreening.is_in_initial_population`: female, with a
birth date present, aged 50 to 74 at measurement end. -/
def HEDISBreastCancerScreening.is_in_initial_population
    (self : HEDISBreastCancerScreening) (patient : Patient) : Bool :=
  if lower_str patient.gender ≠ "female" then false
  else if patient.birthDate = DateVal.missing then false
  else
    let age := get_patient_age self.measurementEnd patient.birthDate
    decide (50 ≤ age ∧ age ≤ 74)

/-- Number of codings whose code hits `BILATERAL_MASTECTOMY_CODES`,
summed over all conditions in the bundle — the `bilateral_count` counter
of `has_exclusion`. -/
def bilateral_matches (conds : List ConditionCodes) : Nat :=
  (conds.flatMap id).countP (fun code => BILATERAL_MASTECTOMY_CODES.contains code)

/-- Number of codings taking the `elif code in UNILATERAL_MASTECTOMY_CODES`
branch of `has_exclusion` (so codes hitting the bilateral list first are
not counted here). -/
def unilateral_matches (conds : List ConditionCodes) : Nat :=
  (conds.flatMap id).countP (fun code =>
    !BILATERAL_MASTECTOMY_CODES.contains code && UNILATERAL_MASTECTOMY_CODES.contains code)

/-- `HEDISBreastCancerScreening.has_exclusion`: queries active conditions
and returns `bilateral_count >= 1 or unilateral_count >= 2`; a query
error (or missing `entry`) yields `False`. -/
def HEDISBreastCancerScreening.has_exclusion
    (_self : HEDISBreastCancerScreening) (repo : Repo) (patient_id : String) : Bool :=
  match repo.activeConditions patient_id with
  | none => false
  | some conds =>
    decide (1 ≤ bilateral_matches conds) || decide (2 ≤ unilateral_matches conds)

/-- The `has_mammo_code` scan of one claim inside
`has_qualifying_mammogram`: some item has some coding whose code is in
`MAMMOGRAPHY_CODES`. -/
def claim_has_mammo_code (claim : ClaimRes) : Bool :=
  claim.items.any (fun item => item.any (fun code => MAMMOGRAPHY_CODES.contains code))

/-- A qualifying-mammogram entry appended by `has_qualifying_mammogram`:
`{'claim_id': .., 'date': .., 'patient': ..}` (the date kept as its
parsed timeline point). -/
structure BCSQualifyingClaim where
  claim_id : String
  date : Int
  patient : String
deriving DecidableEq, Repr

/-- The claim loop of `has_qualifying_mammogram` over a fetched bundle:
claims without a mammography code are skipped, then the claim is kept
exactly when its `created` date parses and lies inside
`[measurement_start, measurement_end]`; absent or unparseable dates are
skipped (`except: pass`). -/
def bcs_scan_claims (self : HEDISBreastCancerScreening) (patient_id : String)
    (claims : List ClaimRes) : List BCSQualifyingClaim :=
  claims.flatMap (fun claim =>
    if claim_has_mammo_code claim then
      match claim.created with
      | DateVal.valid t =>
        if self.measurementStart ≤ t ∧ t ≤ self.measurementEnd then
          [⟨claim.id, t, patient_id⟩]
        else []
      | _ => []
    else [])

/-- `HEDISBreastCancerScreening.has_qualifying_mammogram`: queries the
claims and returns `(len(qualifying_claims) > 0, qualifying_claims)`; a
query error yields `(False, [])`. -/
def HEDISBreastCancerScreening.has_qualifying_mammogram
    (self : HEDISBreastCancerScreening) (repo : Repo) (patient_id : String) :
    Bool × List BCSQualifyingClaim :=
  match repo.claims patient_id with
  | none => (false, [])
  | some cl =>
    let q := bcs_scan_claims self patient_id cl
    (decide (0 < q.length), q)

/-- A numerator entry appended by BCS `evaluate_patients` (the formatted
`name` string and the raw birth-date string are cosmetic and elided). -/
structure BCSNumeratorEntry where
  patient : String
  age : Int
  qualifying_claims : List BCSQualifyingClaim
deriving DecidableEq, Repr

/-- A gap-in-care entry appended by BCS `evaluate_patients`. -/
structure BCSGapEntry where
  patient : String
  age : Int
deriving DecidableEq, Repr

/-- The five accumulator lists of the BCS `evaluate_patients` member loop. -/
structure BCSBuckets where
  initial_population : List String
  denominator : List String
  exclusions : List String
  numerator : List BCSNumeratorEntry
  gap_in_care : List BCSGapEntry
deriving DecidableEq, Repr

/-- The `for patient in patients` loop of BCS `evaluate_patients`
(lines 221-256): skip members outside the initial population; excluded
members go to `exclusions`; the rest enter `denominator` and then exactly
one of `numerator` / `gap_in_care` according to
`has_qualifying_mammogram`.  The source appends in iteration order;
here the head member's entries are consed onto the result for the tail,
which produces the same lists. -/
def HEDISBreastCancerScreening.evaluate_loop
    (self : HEDISBreastCancerScreening) (repo : Repo) :
    List Patient → BCSBuckets
  | [] => ⟨[], [], [], [], []⟩
  | patient :: rest =>
    let b := HEDISBreastCancerScreening.evaluate_loop self repo rest
    let patient_ref := "Patient/" ++ patient.id
    if self.is_in_initial_population patient = false then b
    else if self.has_exclusion repo patient_ref then
      ⟨patient_ref :: b.initial_population, b.denominator,
        patient_ref :: b.exclusions, b.numerator, b.gap_in_care⟩
    else if (self.has_qualifying_mammogram repo patient_ref).1 then
      ⟨patient_ref :: b.initial_population, patient_ref :: b.denominator,
        b.exclusions,
        ⟨patient_ref, get_patient_age self.measurementEnd patient.birthDate,
          (self.has_qualifying_mammogram repo patient_ref).2⟩ :: b.numerator,
        b.gap_in_care⟩
    else
      ⟨patient_ref :: b.initial_population, patient_ref :: b.denominator,
        b.exclusions, b.numerator,
        ⟨patient_ref, get_patient_age self.measurementEnd patient.birthDate⟩
          :: b.gap_in_care⟩

/-- The result dict of a successful BCS `evaluate_patients` run
(lines 263-280), restricted to the non-cosmetic fields. -/
structure BCSResult where
  measure_name : String
  period_start : Int
  period_end : Int
  initial_population : Nat
  denominator : Nat
  numerator : Nat
  exclusions : Nat
  rate : ℚ
  numerator_patients : List BCSNumeratorEntry
  gap_in_care : List BCSGapEntry
  gap_in_care_count : Nat
  sample_size : Nat
deriving DecidableEq, Repr

/-- BCS `evaluate_patients` (lines 214-280), parametrised over the list
of patients the initial `_id` / gender queries fetched: run the member
loop, compute `rate = numerator/denominator*100` guarded by
`denominator > 0`, and round to 2 decimals. -/
def HEDISBreastCancerScreening.evaluate_patients
    (self : HEDISBreastCancerScreening) (repo : Repo)
    (patients : List Patient) : BCSResult :=
  let b := self.evaluate_loop repo patients
  let denominator_count := b.denominator.length
  let numerator_count := b.numerator.length
  let rate : ℚ :=
    if 0 < denominator_count then
      (numerator_count : ℚ) / (denominator_count : ℚ) * 100
    else 0
  { measure_name := "HEDIS Breast Cancer Screening (BCS)",
    period_start := self.measurementStart,
    period_end := self.measurementEnd,
    initial_population := b.initial_population.length,
    denominator := denominator_count,
    numerator := numerator_count,
    exclusions := b.exclusions.length,
    rate := round2 rate,
    numerator_patients := b.numerator.take 10,
    gap_in_care := b.gap_in_care.take 20,
    gap_in_care_count := b.gap_in_care.length,
    sample_size := patients.length }

/-- Keys of the dict returned by a successful BCS `evaluate_patients`
run (lines 263-280), transcribed from the source. -/
def bcs_result_keys : List String :=
  ["measure_name", "measurement_period", "initial_population",
   "denominator", "numerator", "exclusions", "rate", "rate_display",
   "numerator_patients", "gap_in_care", "gap_in_care_count",
   "sample_size", "note"]

/-- Keys of the BCS `measurement_period` sub-dict (lines 265-268). -/
def bcs_period_keys : List String := ["start", "end"]

/-- `COLONOSCOPY_CODES` from the source. -/
def COLONOSCOPY_CODES : List String :=
  ["45378", "45379", "45380", "45381", "45382", "45384", "45385", "45386",
   "45388", "45389", "45390", "45391", "45392", "45393", "45398"]

/-- `FIT_DNA_CODES` from the source (Cologuard). -/
def FIT_DNA_CODES : List String := ["81528"]

/-- `FECAL_OCCULT_BLOOD_CODES` from the source. -/
def FECAL_OCCULT_BLOOD_CODES : List String := ["82270", "82274"]

/-- State of a `HEDISColorectalCancerScreening` instance:
`measurement_end = datetime.now()`,
`colonoscopy_start = measurement_end - relativedelta(years=10)`,
`fit_start = measurement_end - relativedelta(years=1)`. -/
structure HEDISColorectalCancerScreening where
  measurementEnd : Int
  colonoscopyStart : Int
  fitStart : Int
deriving DecidableEq, Repr

/-- The `__init__` of `HEDISColorectalCancerScreening` (10 years modelled
as 3650 days, 1 year as 365 days). -/
def HEDISColorectalCancerScreening.init (now : Int) :
    HEDISColorectalCancerScreening :=
  ⟨now, now - 3650, now - 365⟩

/-- `HEDISColorectalCancerScreening.is_in_initial_population`: birth date
present and age 45 to 75. -/
def HEDISColorectalCancerScreening.is_in_initial_population
    (self : HEDISColorectalCancerScreening) (patient : Patient) : Bool :=
  if patient.birthDate = DateVal.missing then false
  else
    let age := get_patient_age self.measurementEnd patient.birthDate
    decide (45 ≤ age ∧ age ≤ 75)

/-- A qualifying-screening entry appended by `has_qualifying_screening`:
`{'claim_id': .., 'date': .., 'type': .., 'code': ..}`. -/
structure COLQualifyingClaim where
  claim_id : String
  date : Int
  type : String
  code : String
deriving DecidableEq, Repr

/-- The innermost coding check of `has_qualifying_screening`: skip absent
or unparseable `created` dates, otherwise match the code against the
colonoscopy set with the 10-year window, `elif` against the FIT / FIT-DNA
sets with the 1-year window. -/
def col_code_matches (self : HEDISColorectalCancerScreening)
    (claim : ClaimRes) (code : String) : List COLQualifyingClaim :=
  match claim.created with
  | DateVal.valid t =>
    if COLONOSCOPY_CODES.contains code
        ∧ self.colonoscopyStart ≤ t ∧ t ≤ self.measurementEnd then
      [⟨claim.id, t, "Colonoscopy", code⟩]
    else if (FIT_DNA_CODES.contains code ∨ FECAL_OCCULT_BLOOD_CODES.contains code)
        ∧ self.fitStart ≤ t ∧ t ≤ self.measurementEnd then
      [⟨claim.id, t, if FIT_DNA_CODES.contains code then "FIT-DNA" else "FIT", code⟩]
    else []
  | _ => []

/-- The claim/item/coding triple loop of `has_qualifying_screening` over
a fetched bundle. -/
def col_scan_claims (self : HEDISColorectalCancerScreening)
    (claims : List ClaimRes) : List COLQualifyingClaim :=
  claims.flatMap (fun claim =>
    claim.items.flatMap (fun item =>
      item.flatMap (fun code => col_code_matches self claim code)))

/-- `HEDISColorectalCancerScreening.has_qualifying_screening`: strips the
`Patient/` ref, queries the claims and returns
`(len(qualifying_claims) > 0, qualifying_claims)`; a query error yields
`(False, [])`. -/
def HEDISColorectalCancerScreening.has_qualifying_screening
    (self : HEDISColorectalCancerScreening) (repo : Repo)
    (patient_id : String) : Bool × List COLQualifyingClaim :=
  match repo.claims (stripPatientRef patient_id) with
  | none => (false, [])
  | some cl =>
    let q := col_scan_claims self cl
    (decide (0 < q.length), q)

/-- The dict returned by COL `evaluate_patients` (lines 409-425),
restricted to the non-cosmetic fields.  The two sample lists are always
returned empty by the source, so their element type is immaterial. -/
structure COLResult where
  measure_name : String
  colonoscopy_lookback : Int
  fit_lookback : Int
  period_end : Int
  denominator : Nat
  numerator : Nat
  rate : ℚ
  numerator_patients : List COLQualifyingClaim
  gap_in_care : List COLQualifyingClaim
  gap_in_care_count : Nat
  sample_size : Nat
deriving DecidableEq, Repr

/-- COL `evaluate_patients` (lines 406-425): the body is a single
`return` of a hard-coded dict, so everything after it (lines 427-474) is
dead code and the repository is never consulted. -/
def HEDISColorectalCancerScreening.evaluate_patients
    (self : HEDISColorectalCancerScreening) (_repo : Repo) : COLResult :=
  { measure_name := "HEDIS Colorectal Cancer Screening (COL)",
    colonoscopy_lookback := self.colonoscopyStart,
    fit_lookback := self.fitStart,
    period_end := self.measurementEnd,
    denominator := 1000,
    numerator := 896,
    rate := 448/5,
    numerator_patients := [],
    gap_in_care := [],
    gap_in_care_count := 104,
    sample_size := 1000 }

/-- Keys of the dict returned by COL `evaluate_patients` (lines 409-425),
transcribed from the source. -/
def col_result_keys : List String :=
  ["measure_name", "measurement_period", "denominator", "numerator",
   "rate", "rate_display", "numerator_patients", "gap_in_care",
   "gap_in_care_count", "sample_size", "note"]

/-- Keys of the COL `measurement_period` sub-dict (lines 411-415). -/
def col_period_keys : List String :=
  ["colonoscopy_lookback", "fit_lookback", "end"]

/-- `HBA1C_CODES` from the source. -/
def HBA1C_CODES : List String := ["83036", "83037"]

/-- `DIABETES_ICD10_CODES` from the source. -/
def DIABETES_ICD10_CODES : List String := ["E10", "E11", "E13"]

/-- State of a `HEDISDiabetesCare` instance:
`measurement_end = datetime.now()`,
`measurement_start = measurement_end - relativedelta(years=1)`. -/
structure HEDISDiabetesCare where
  measurementEnd : Int
  measurementStart : Int
deriving DecidableEq, Repr

/-- The `__init__` of `HEDISDiabetesCare` (1 year modelled as 365 days). -/
def HEDISDiabetesCare.init (now : Int) : HEDISDiabetesCare :=
  ⟨now, now - 365⟩

/-- `HEDISDiabetesCare.has_diabetes`: strips the `Patient/` ref, queries
the conditions, and succeeds when some coding code starts with one of
the diabetes ICD-10 family roots; a query error yields `False`. -/
def HEDISDiabetesCare.has_diabetes
    (_self : HEDISDiabetesCare) (repo : Repo) (patient_id : String) : Bool :=
  match repo.conditions (stripPatientRef patient_id) with
  | none => false
  | some conds =>
    conds.any (fun cond =>
      cond.any (fun code =>
        DIABETES_ICD10_CODES.any (fun dia_code => starts_with code dia_code)))

/-- `HEDISDiabetesCare.is_in_initial_population`: birth date present,
age 18 to 75, and a diabetes diagnosis on record. -/
def HEDISDiabetesCare.is_in_initial_population
    (self : HEDISDiabetesCare) (repo : Repo) (patient : Patient)
    (patient_id : String) : Bool :=
  if patient.birthDate = DateVal.missing then false
  else
    let age := get_patient_age self.measurementEnd patient.birthDate
    if ¬ (18 ≤ age ∧ age ≤ 75) then false
    else self.has_diabetes repo ("Patient/" ++ patient_id)

/-- A qualifying-test entry appended by `has_hba1c_test`:
`{'claim_id': .., 'date': .., 'code': ..}`. -/
structure CDCQualifyingTest where
  claim_id : String
  date : Int
  code : String
deriving DecidableEq, Repr

/-- The claim/item/coding loop of `has_hba1c_test`: a coding matches when
its code is in `HBA1C_CODES` and the claim's `created` date parses and
lies inside `[measurement_start, measurement_end]`; absent or
unparseable dates are skipped. -/
def cdc_scan_claims (self : HEDISDiabetesCare) (claims : List ClaimRes) :
    List CDCQualifyingTest :=
  claims.flatMap (fun claim =>
    claim.items.flatMap (fun item =>
      item.flatMap (fun code =>
        if HBA1C_CODES.contains code then
          match claim.created with
          | DateVal.valid t =>
            if self.measurementStart ≤ t ∧ t ≤ self.measurementEnd then
              [⟨claim.id, t, code⟩]
            else []
          | _ => []
        else [])))

/-- `HEDISDiabetesCare.has_hba1c_test`: strips the `Patient/` ref,
queries the claims and returns `(len(qualifying_tests) > 0,
qualifying_tests)`; a query error yields `(False, [])`. -/
def HEDISDiabetesCare.has_hba1c_test
    (self : HEDISDiabetesCare) (repo : Repo) (patient_id : String) :
    Bool × List CDCQualifyingTest :=
  match repo.claims (stripPatientRef patient_id) with
  | none => (false, [])
  | some cl =>
    let q := cdc_scan_claims self cl
    (decide (0 < q.length), q)

/-- A numerator / gap entry of CDC `evaluate_patients` (the formatted
`name` string is cosmetic and elided; `qualifying_tests` stays `[]` for
gap entries, which never receive that key in the source). -/
structure CDCEntry where
  patient : String
  age : Int
  qualifying_tests : List CDCQualifyingTest
deriving DecidableEq, Repr

/-- The three accumulator lists of the CDC `evaluate_patients` member
loop. -/
structure CDCBuckets where
  denominator : List String
  numerator : List CDCEntry
  gap_in_care : List CDCEntry
deriving DecidableEq, Repr

/-- The `for patient in patients` loop of CDC `evaluate_patients`
(lines 615-640), with the `if len(denominator) >= max_patients: break`
guard at the top of each iteration; the accumulator is threaded
explicitly and entries are appended in iteration order, as in the
source. -/
def HEDISDiabetesCare.evaluate_loop
    (self : HEDISDiabetesCare) (repo : Repo) (max_patients : Nat)
    (acc : CDCBuckets) : List Patient → CDCBuckets
  | [] => acc
  | patient :: rest =>
    if max_patients ≤ acc.denominator.length then acc
    else
      let patient_ref := "Patient/" ++ patient.id
      if self.is_in_initial_population repo patient patient.id = false then
        HEDISDiabetesCare.evaluate_loop self repo max_patients acc rest
      else
        let age := get_patient_age self.measurementEnd patient.birthDate
        if (self.has_hba1c_test repo patient_ref).1 then
          HEDISDiabetesCare.evaluate_loop self repo max_patients
            ⟨acc.denominator ++ [patient_ref],
             acc.numerator
               ++ [⟨patient_ref, age, (self.has_hba1c_test repo patient_ref).2⟩],
             acc.gap_in_care⟩ rest
        else
          HEDISDiabetesCare.evaluate_loop self repo max_patients
            ⟨acc.denominator ++ [patient_ref], acc.numerator,
             acc.gap_in_care ++ [⟨patient_ref, age, []⟩]⟩ rest

/-- The dict returned by CDC / CBP `evaluate_patients` when the patient
fetch produced no patients: `{'error': .., 'denominator': 0,
'numerator': 0, 'rate': 0.0}` (the constant fields are kept). -/
structure NoPatientsResult where
  denominator : Nat
  numerator : Nat
  rate : ℚ
deriving DecidableEq, Repr

/-- The result dict of a successful CDC `evaluate_patients` run
(lines 646-660), restricted to the non-cosmetic fields. -/
structure CDCResult where
  measure_name : String
  period_start : Int
  period_end : Int
  denominator : Nat
  numerator : Nat
  rate : ℚ
  numerator_patients : List CDCEntry
  gap_in_care : List CDCEntry
  gap_in_care_count : Nat
  sample_size : Nat
deriving DecidableEq, Repr

/-- The successful tail of CDC `evaluate_patients` (lines 611-660): run
the member loop from empty accumulators and assemble the result dict,
with the rate computation guarded by `denominator > 0` and rounded to 2
decimals. -/
def HEDISDiabetesCare.evaluate_result
    (self : HEDISDiabetesCare) (repo : Repo) (max_patients : Nat)
    (patients : List Patient) : CDCResult :=
  let b := self.evaluate_loop repo max_patients ⟨[], [], []⟩ patients
  let denominator_count := b.denominator.length
  let numerator_count := b.numerator.length
  let rate : ℚ :=
    if 0 < denominator_count then
      (numerator_count : ℚ) / (denominator_count : ℚ) * 100
    else 0
  { measure_name := "HEDIS Comprehensive Diabetes Care - HbA1c Testing (CDC)",
    period_start := self.measurementStart,
    period_end := self.measurementEnd,
    denominator := denominator_count,
    numerator := numerator_count,
    rate := round2 rate,
    numerator_patients := b.numerator.take 10,
    gap_in_care := b.gap_in_care.take 20,
    gap_in_care_count := b.gap_in_care.length,
    sample_size := patients.length }

/-- CDC `evaluate_patients` (lines 592-660), parametrised over the list
of patients the `_id` batch queries fetched: an empty fetch returns the
error dict, otherwise the success path runs. -/
def HEDISDiabetesCare.evaluate_patients
    (self : HEDISDiabetesCare) (repo : Repo) (max_patients : Nat)
    (patients : List Patient) : Except NoPatientsResult CDCResult :=
  if patients.isEmpty then .error ⟨0, 0, 0⟩
  else .ok (self.evaluate_result repo max_patients patients)

/-- Keys of the dict returned by a successful CDC `evaluate_patients`
run (lines 646-660), transcribed from the source. -/
def cdc_result_keys : List String :=
  ["measure_name", "measurement_period", "denominator", "numerator",
   "rate", "rate_display", "numerator_patients", "gap_in_care",
   "gap_in_care_count", "sample_size"]

/-- Keys of the CDC `measurement_period` sub-dict (lines 648-651). -/
def cdc_period_keys : List String := ["start", "end"]

/-- `BLOOD_PRESSURE_CODES` from the source (office-visit CPT codes). -/
def BLOOD_PRESSURE_CODES : List String :=
  ["99201", "99202", "99203", "99204", "99205", "99211", "99212",
   "99213", "99214", "99215"]

/-- `HYPERTENSION_ICD10_CODES` from the source. -/
def HYPERTENSION_ICD10_CODES : List String :=
  ["I10", "I11", "I12", "I13", "I15"]

/-- State of a `HEDISControllingBloodPressure` instance:
`measurement_end = datetime.now()`,
`measurement_start = measurement_end - relativedelta(years=1)`. -/
structure HEDISControllingBloodPressure where
  measurementEnd : Int
  measurementStart : Int
deriving DecidableEq, Repr

/-- The `__init__` of `HEDISControllingBloodPressure` (1 year modelled as
365 days). -/
def HEDISControllingBloodPressure.init (now : Int) :
    HEDISControllingBloodPressure :=
  ⟨now, now - 365⟩

/-- `HEDISControllingBloodPressure.has_hypertension`: strips the
`Patient/` ref, queries the conditions, and succeeds when some coding
code starts with one of the hypertension ICD-10 family roots; a query
error yields `False`. -/
def HEDISControllingBloodPressure.has_hypertension
    (_self : HEDISControllingBloodPressure) (repo : Repo)
    (patient_id : String) : Bool :=
  match repo.conditions (stripPatientRef patient_id) with
  | none => false
  | some conds =>
    conds.any (fun cond =>
      cond.any (fun code =>
        HYPERTENSION_ICD10_CODES.any (fun htn_code => starts_with code htn_code)))

/-- `HEDISControllingBloodPressure.is_in_initial_population`: birth date
present, age 18 to 85, and a hypertension diagnosis on record. -/
def HEDISControllingBloodPressure.is_in_initial_population
    (self : HEDISControllingBloodPressure) (repo : Repo) (patient : Patient)
    (patient_id : String) : Bool :=
  if patient.birthDate = DateVal.missing then false
  else
    let age := get_patient_age self.measurementEnd patient.birthDate
    if ¬ (18 ≤ age ∧ age ≤ 85) then false
    else self.has_hypertension repo ("Patient/" ++ patient_id)

/-- A recent-visit entry appended by `has_controlled_bp`:
`{'date': .., 'code': ..}`. -/
structure CBPVisit where
  date : Int
  code : String
deriving DecidableEq, Repr

/-- The claim/item/coding loop of `has_controlled_bp`: a coding matches
when its code is in `BLOOD_PRESSURE_CODES` and the claim's `created`
date parses and lies inside `[measurement_start, measurement_end]`;
absent or unparseable dates are skipped. -/
def cbp_scan_claims (self : HEDISControllingBloodPressure)
    (claims : List ClaimRes) : List CBPVisit :=
  claims.flatMap (fun claim =>
    claim.items.flatMap (fun item =>
      item.flatMap (fun code =>
        if BLOOD_PRESSURE_CODES.contains code then
          match claim.created with
          | DateVal.valid t =>
            if self.measurementStart ≤ t ∧ t ≤ self.measurementEnd then
              [⟨t, code⟩]
            else []
          | _ => []
        else [])))

/-- `HEDISControllingBloodPressure.has_controlled_bp`: strips the
`Patient/` ref, queries the claims and returns
`(len(recent_visits) > 0, visits)`; a query error yields `(False, {})`
(the empty dict modelled as the empty visit list). -/
def HEDISControllingBloodPressure.has_controlled_bp
    (self : HEDISControllingBloodPressure) (repo : Repo)
    (patient_id : String) : Bool × List CBPVisit :=
  match repo.claims (stripPatientRef patient_id) with
  | none => (false, [])
  | some cl =>
    let q := cbp_scan_claims self cl
    (decide (0 < q.length), if decide (0 < q.length) then q else [])

/-- A numerator / gap entry of CBP `evaluate_patients` (`bp_info` stays
`[]` for gap entries, which never receive that key in the source). -/
structure CBPEntry where
  patient : String
  age : Int
  bp_info : List CBPVisit
deriving DecidableEq, Repr

/-- The three accumulator lists of the CBP `evaluate_patients` member
loop. -/
structure CBPBuckets where
  denominator : List String
  numerator : List CBPEntry
  gap_in_care : List CBPEntry
deriving DecidableEq, Repr

/-- The `for patient in patients` loop of CBP `evaluate_patients`
(lines 807-832), with the `if len(denominator) >= max_patients: break`
guard at the top of each iteration. -/
def HEDISControllingBloodPressure.evaluate_loop
    (self : HEDISControllingBloodPressure) (repo : Repo) (max_patients : Nat)
    (acc : CBPBuckets) : List Patient → CBPBuckets
  | [] => acc
  | patient :: rest =>
    if max_patients ≤ acc.denominator.length then acc
    else
      let patient_ref := "Patient/" ++ patient.id
      if self.is_in_initial_population repo patient patient.id = false then
        HEDISControllingBloodPressure.evaluate_loop self repo max_patients acc rest
      else
        let age := get_patient_age self.measurementEnd patient.birthDate
        if (self.has_controlled_bp repo patient_ref).1 then
          HEDISControllingBloodPressure.evaluate_loop self repo max_patients
            ⟨acc.denominator ++ [patient_ref],
             acc.numerator
               ++ [⟨patient_ref, age, (self.has_controlled_bp repo patient_ref).2⟩],
             acc.gap_in_care⟩ rest
        else
          HEDISControllingBloodPressure.evaluate_loop self repo max_patients
            ⟨acc.denominator ++ [patient_ref], acc.numerator,
             acc.gap_in_care ++ [⟨patient_ref, age, []⟩]⟩ rest

/-- The result dict of a successful CBP `evaluate_patients` run
(lines 838-853), restricted to the non-cosmetic fields. -/
structure CBPResult where
  measure_name : String
  period_start : Int
  period_end : Int
  denominator : Nat
  numerator : Nat
  rate : ℚ
  numerator_patients : List CBPEntry
  gap_in_care : List CBPEntry
  gap_in_care_count : Nat
  sample_size : Nat
deriving DecidableEq, Repr

/-- The successful tail of CBP `evaluate_patients` (lines 803-853): run
the member loop from empty accumulators and assemble the result dict,
with the rate computation guarded by `denominator > 0` and rounded to 2
decimals. -/
def HEDISControllingBloodPressure.evaluate_result
    (self : HEDISControllingBloodPressure) (repo : Repo) (max_patients : Nat)
    (patients : List Patient) : CBPResult :=
  let b := self.evaluate_loop repo max_patients ⟨[], [], []⟩ patients
  let denominator_count := b.denominator.length
  let numerator_count := b.numerator.length
  let rate : ℚ :=
    if 0 < denominator_count then
      (numerator_count : ℚ) / (denominator_count : ℚ) * 100
    else 0
  { measure_name := "HEDIS Controlling High Blood Pressure (CBP)",
    period_start := self.measurementStart,
    period_end := self.measurementEnd,
    denominator := denominator_count,
    numerator := numerator_count,
    rate := round2 rate,
    numerator_patients := b.numerator.take 10,
    gap_in_care := b.gap_in_care.take 20,
    gap_in_care_count := b.gap_in_care.length,
    sample_size := patients.length }

/-- CBP `evaluate_patients` (lines 784-853), parametrised over the list
of patients the `_id` batch queries fetched: an empty fetch returns the
error dict, otherwise the success path runs. -/
def HEDISControllingBloodPressure.evaluate_patients
    (self : HEDISControllingBloodPressure) (repo : Repo) (max_patients : Nat)
    (patients : List Patient) : Except NoPatientsResult CBPResult :=
  if patients.isEmpty then .error ⟨0, 0, 0⟩
  else .ok (self.evaluate_result repo max_patients patients)

/-- Keys of the dict returned by a successful CBP `evaluate_patients`
run (lines 838-853), transcribed from the source. -/
def cbp_result_keys : List String :=
  ["measure_name", "measurement_period", "denominator", "numerator",
   "rate", "rate_display", "numerator_patients", "gap_in_care",
   "gap_in_care_count", "sample_size", "note"]

/-- Keys of the CBP `measurement_period` sub-dict (lines 840-843). -/
def cbp_period_keys : List String := ["start", "end"]

/-- Modelled from the spec: `hasExclusion` with a partial-exclusion set
"requiring >= 2 distinct matches to exclude", so two recorded conditions
carrying the same single unilateral code give only one distinct match.
Distinctness is read as the number of distinct unilateral codes that
occur among the member's condition codings. -/
def has_exclusion_distinct_spec (conds : List ConditionCodes) : Bool :=
  decide (1 ≤ bilateral_matches conds) ||
    decide (2 ≤ (UNILATERAL_MASTECTOMY_CODES.filter
      (fun u => (conds.flatMap id).contains u)).length)

/-- Modelled from the spec (§6): the stable output keys every evaluator
result is claimed to contain. -/
def required_result_keys : List String :=
  ["measure_name", "measurement_period", "denominator", "numerator",
   "exclusions", "rate", "rate_display", "numerator_patients",
   "gap_in_care", "gap_in_care_count", "sample_size"]

/-- The rate property asserted by the spec: guarded division, exact `0`
for an empty denominator, and a value inside `[0, 100]`. -/
def rate_spec (denominator numerator : Nat) (rate : ℚ) : Prop :=
  (denominator = 0 → rate = 0) ∧
  (0 < denominator →
    rate = round2 ((numerator : ℚ) / (denominator : ℚ) * 100)) ∧
  0 ≤ rate ∧ rate ≤ 100

lemma roundHalfEven_nonneg {q : ℚ} (hq : 0 ≤ q) : 0 ≤ roundHalfEven q := by
  have h0 : (0 : ℤ) ≤ ⌊q⌋ := Int.floor_nonneg.mpr hq
  unfold roundHalfEven
  split_ifs <;> omega

lemma roundHalfEven_le_of_le {q : ℚ} {n : ℤ} (h : q ≤ (n : ℚ)) :
    roundHalfEven q ≤ n := by
  have hfl : ⌊q⌋ ≤ n := by
    have h1 := Int.floor_le_floor h
    simpa using h1
  have hq : (⌊q⌋ : ℚ) ≤ q := Int.floor_le q
  have key : ¬ (q - ⌊q⌋ < 1/2) → ⌊q⌋ + 1 ≤ n := by
    intro h1
    rcases eq_or_lt_of_le hfl with heq | hlt
    · exfalso
      have h2 : (1 : ℚ)/2 ≤ q - ⌊q⌋ := not_lt.mp h1
      have h3 : ((⌊q⌋ : ℤ) : ℚ) = (n : ℚ) := by exact_mod_cast heq
      linarith
    · omega
  unfold roundHalfEven
  split_ifs with h1 h2 h3
  · exact hfl
  · exact key h1
  · exact hfl
  · exact key h1

lemma round2_nonneg {q : ℚ} (hq : 0 ≤ q) : 0 ≤ round2 q := by
  have h : (0 : ℚ) ≤ (roundHalfEven (q * 100) : ℚ) := by
    exact_mod_cast roundHalfEven_nonneg (by positivity)
  unfold round2
  positivity

lemma round2_le_100 {q : ℚ} (hq : q ≤ 100) : round2 q ≤ 100 := by
  have h1 : q * 100 ≤ ((10000 : ℤ) : ℚ) := by push_cast; linarith
  have h2 : roundHalfEven (q * 100) ≤ 10000 := roundHalfEven_le_of_le h1
  have h3 : (roundHalfEven (q * 100) : ℚ) ≤ 10000 := by exact_mod_cast h2
  unfold round2
  linarith

lemma round2_zero : round2 0 = 0 := by
  have h : roundHalfEven 0 = 0 := by
    unfold roundHalfEven
    norm_num
  rw [round2]
  norm_num [h]

/-- The rate computation shared by the BCS, CDC and CBP evaluators
satisfies the spec's rate property as soon as the numerator count is at
most the denominator count. -/
lemma rate_spec_holds (dc nc : Nat) (hle : nc ≤ dc) :
    rate_spec dc nc
      (round2 (if 0 < dc then (nc : ℚ) / (dc : ℚ) * 100 else 0)) := by
  refine ⟨?_, ?_, ?_, ?_⟩
  · intro h0
    simp [h0, round2_zero]
  · intro hpos
    rw [if_pos hpos]
  · by_cases hpos : 0 < dc
    · rw [if_pos hpos]
      have hd : (0 : ℚ) < (dc : ℚ) := by exact_mod_cast hpos
      apply round2_nonneg
      positivity
    · rw [if_neg hpos, round2_zero]
  · by_cases hpos : 0 < dc
    · rw [if_pos hpos]
      have hd : (0 : ℚ) < (dc : ℚ) := by exact_mod_cast hpos
      have hle2 : (nc : ℚ) ≤ (dc : ℚ) := by exact_mod_cast hle
      apply round2_le_100
      have h1 : (nc : ℚ) / (dc : ℚ) ≤ 1 := (div_le_one hd).mpr hle2
      linarith
    · rw [if_neg hpos, round2_zero]
      norm_num

/-- Loop invariant of the BCS member loop: the initial-population list is
a permutation of the three terminal buckets together, the denominator
splits into numerator and gap, and the initial population splits into
exclusions and denominator. -/
lemma bcs_loop_partition (self : HEDISBreastCancerScreening) (repo : Repo)
    (patients : List Patient) :
    (self.evaluate_loop repo patients).initial_population.Perm
      ((self.evaluate_loop repo patients).exclusions
        ++ (self.evaluate_loop repo patients).numerator.map BCSNumeratorEntry.patient
        ++ (self.evaluate_loop repo patients).gap_in_care.map BCSGapEntry.patient)
    ∧ (self.evaluate_loop repo patients).denominator.length
        = (self.evaluate_loop repo patients).numerator.length
          + (self.evaluate_loop repo patients).gap_in_care.length
    ∧ (self.evaluate_loop repo patients).initial_population.length
        = (self.evaluate_loop repo patients).exclusions.length
          + (self.evaluate_loop repo patients).denominator.length := by
  induction patients with
  | nil =>
    refine ⟨?_, rfl, rfl⟩
    simp [HEDISBreastCancerScreening.evaluate_loop]
  | cons p rest ih =>
    obtain ⟨ihp, ihd, ihi⟩ := ih
    simp only [HEDISBreastCancerScreening.evaluate_loop]
    split_ifs with h1 h2 h3
    · exact ⟨ihp, ihd, ihi⟩
    · refine ⟨ihp.cons _, ?_, ?_⟩ <;> simp only [List.length_cons] <;> omega
    · refine ⟨?_, ?_, ?_⟩
      · exact (ihp.cons _).trans
          ((List.perm_middle.append_right _).symm)
      · simp only [List.length_cons]; omega
      · simp only [List.length_cons]; omega
    · refine ⟨?_, ?_, ?_⟩
      · exact (ihp.cons _).trans List.perm_middle.symm
      · simp only [List.length_cons]; omega
      · simp only [List.length_cons]; omega

/-- Loop invariant of the CDC member loop: the denominator splits into
numerator and gap. -/
lemma cdc_loop_counts (self : HEDISDiabetesCare) (repo : Repo)
    (max_patients : Nat) (patients : List Patient) :
    ∀ acc : CDCBuckets,
      acc.denominator.length = acc.numerator.length + acc.gap_in_care.length →
      (self.evaluate_loop repo max_patients acc patients).denominator.length
        = (self.evaluate_loop repo max_patients acc patients).numerator.length
          + (self.evaluate_loop repo max_patients acc patients).gap_in_care.length := by
  induction patients with
  | nil => intro acc h; exact h
  | cons p rest ih =>
    intro acc h
    simp only [HEDISDiabetesCare.evaluate_loop]
    split_ifs with h1 h2 h3
    · exact h
    · exact ih acc h
    · apply ih
      simp only [List.length_append, List.length_singleton]
      omega
    · apply ih
      simp only [List.length_append, List.length_singleton]
      omega

/-- Loop invariant of the CBP member loop: the denominator splits into
numerator and gap. -/
lemma cbp_loop_counts (self : HEDISControllingBloodPressure) (repo : Repo)
    (max_patients : Nat) (patients : List Patient) :
    ∀ acc : CBPBuckets,
      acc.denominator.length = acc.numerator.length + acc.gap_in_care.length →
      (self.evaluate_loop repo max_patients acc patients).denominator.length
        = (self.evaluate_loop repo max_patients acc patients).numerator.length
          + (self.evaluate_loop repo max_patients acc patients).gap_in_care.length := by
  induction patients with
  | nil => intro acc h; exact h
  | cons p rest ih =>
    intro acc h
    simp only [HEDISControllingBloodPressure.evaluate_loop]
    split_ifs with h1 h2 h3
    · exact h
    · exact ih acc h
    · apply ih
      simp only [List.length_append, List.length_singleton]
      omega
    · apply ih
      simp only [List.length_append, List.length_singleton]
      omega

/-- C1: for the BCS evaluator, over every fetched patient list and every
repository state, each member placed in the initial population lands in
exactly one of exclusions / numerator / gap-in-care (the
initial-population list is a permutation of those three buckets
appended), the returned denominator count equals the initial-population
count minus the exclusions count, and numerator plus gap-in-care counts
equal the denominator count. -/
theorem bcs_member_partition_and_counts
    (self : HEDISBreastCancerScreening) (repo : Repo)
    (patients : List Patient) :
    (self.evaluate_loop repo patients).initial_population.Perm
      ((self.evaluate_loop repo patients).exclusions
        ++ (self.evaluate_loop repo patients).numerator.map BCSNumeratorEntry.patient
        ++ (self.evaluate_loop repo patients).gap_in_care.map BCSGapEntry.patient)
    ∧ (self.evaluate_patients repo patients).denominator
        = (self.evaluate_patients repo patients).initial_population
          - (self.evaluate_patients repo patients).exclusions
    ∧ (self.evaluate_patients repo patients).numerator
        + (self.evaluate_patients repo patients).gap_in_care_count
      = (self.evaluate_patients repo patients).denominator := by
  obtain ⟨hp, hd, hi⟩ := bcs_loop_partition self repo patients
  have e1 : (self.evaluate_patients repo patients).denominator
      = (self.evaluate_loop repo patients).denominator.length := rfl
  have e2 : (self.evaluate_patients repo patients).initial_population
      = (self.evaluate_loop repo patients).initial_population.length := rfl
  have e3 : (self.evaluate_patients repo patients).exclusions
      = (self.evaluate_loop repo patients).exclusions.length := rfl
  have e4 : (self.evaluate_patients repo patients).numerator
      = (self.evaluate_loop repo patients).numerator.length := rfl
  have e5 : (self.evaluate_patients repo patients).gap_in_care_count
      = (self.evaluate_loop repo patients).gap_in_care.length := rfl
  refine ⟨hp, ?_, ?_⟩ <;> simp only [e1, e2, e3, e4, e5] <;> omega

/-- C6: for every run of the BCS, CDC and CBP evaluators, the returned
rate equals `numerator / denominator * 100` rounded to 2 decimals when
the denominator is positive, equals exactly `0` when the denominator is
`0` (the division is guarded), and always lies in `[0, 100]`; the
no-patients error dicts of CDC and CBP also carry denominator `0` and
rate `0`. -/
theorem measure_rate_guarded_and_bounded :
    (∀ (self : HEDISBreastCancerScreening) (repo : Repo)
        (patients : List Patient),
      rate_spec (self.evaluate_patients repo patients).denominator
        (self.evaluate_patients repo patients).numerator
        (self.evaluate_patients repo patients).rate)
    ∧ (∀ (self : HEDISDiabetesCare) (repo : Repo) (max_patients : Nat)
        (patients : List Patient),
      rate_spec (self.evaluate_result repo max_patients patients).denominator
        (self.evaluate_result repo max_patients patients).numerator
        (self.evaluate_result repo max_patients patients).rate)
    ∧ (∀ (self : HEDISDiabetesCare) (repo : Repo) (max_patients : Nat)
        (patients : List Patient) (e : NoPatientsResult),
      self.evaluate_patients repo max_patients patients = Except.error e →
      e.denominator = 0 ∧ e.rate = 0)
    ∧ (∀ (self : HEDISControllingBloodPressure) (repo : Repo)
        (max_patients : Nat) (patients : List Patient),
      rate_spec (self.evaluate_result repo max_patients patients).denominator
        (self.evaluate_result repo max_patients patients).numerator
        (self.evaluate_result repo max_patients patients).rate)
    ∧ (∀ (self : HEDISControllingBloodPressure) (repo : Repo)
        (max_patients : Nat) (patients : List Patient) (e : NoPatientsResult),
      self.evaluate_patients repo max_patients patients = Except.error e →
      e.denominator = 0 ∧ e.rate = 0) := by
  refine ⟨?_, ?_, ?_, ?_, ?_⟩
  · intro self repo patients
    have hd := (bcs_loop_partition self repo patients).2.1
    have e1 : (self.evaluate_patients repo patients).denominator
        = (self.evaluate_loop repo patients).denominator.length := rfl
    have e2 : (self.evaluate_patients repo patients).numerator
        = (self.evaluate_loop repo patients).numerator.length := rfl
    have e3 : (self.evaluate_patients repo patients).rate
        = round2 (if 0 < (self.evaluate_loop repo patients).denominator.length
            then ((self.evaluate_loop repo patients).numerator.length : ℚ)
              / ((self.evaluate_loop repo patients).denominator.length : ℚ) * 100
            else 0) := rfl
    rw [e1, e2, e3]
    exact rate_spec_holds _ _ (by omega)
  · intro self repo max_patients patients
    have hd := cdc_loop_counts self repo max_patients patients ⟨[], [], []⟩ rfl
    have e1 : (self.evaluate_result repo max_patients patients).denominator
        = (self.evaluate_loop repo max_patients ⟨[], [], []⟩ patients).denominator.length := rfl
    have e2 : (self.evaluate_result repo max_patients patients).numerator
        = (self.evaluate_loop repo max_patients ⟨[], [], []⟩ patients).numerator.length := rfl
    have e3 : (self.evaluate_result repo max_patients patients).rate
        = round2 (if 0 < (self.evaluate_loop repo max_patients ⟨[], [], []⟩ patients).denominator.length
            then ((self.evaluate_loop repo max_patients ⟨[], [], []⟩ patients).numerator.length : ℚ)
              / ((self.evaluate_loop repo max_patients ⟨[], [], []⟩ patients).denominator.length : ℚ) * 100
            else 0) := rfl
    rw [e1, e2, e3]
    exact rate_spec_holds _ _ (by omega)
  · intro self repo max_patients patients e he
    unfold HEDISDiabetesCare.evaluate_patients at he
    split at he
    · cases he
      exact ⟨rfl, rfl⟩
    · cases he
  · intro self repo max_patients patients
    have hd := cbp_loop_counts self repo max_patients patients ⟨[], [], []⟩ rfl
    have e1 : (self.evaluate_result repo max_patients patients).denominator
        = (self.evaluate_loop repo max_patients ⟨[], [], []⟩ patients).denominator.length := rfl
    have e2 : (self.evaluate_result repo max_patients patients).numerator
        = (self.evaluate_loop repo max_patients ⟨[], [], []⟩ patients).numerator.length := rfl
    have e3 : (self.evaluate_result repo max_patients patients).rate
        = round2 (if 0 < (self.evaluate_loop repo max_patients ⟨[], [], []⟩ patients).denominator.length
            then ((self.evaluate_loop repo max_patients ⟨[], [], []⟩ patients).numerator.length : ℚ)
              / ((self.evaluate_loop repo max_patients ⟨[], [], []⟩ patients).denominator.length : ℚ) * 100
            else 0) := rfl
    rw [e1, e2, e3]
    exact rate_spec_holds _ _ (by omega)
  · intro self repo max_patients patients e he
    unfold HEDISControllingBloodPressure.evaluate_patients at he
    split at he
    · cases he
      exact ⟨rfl, rfl⟩
    · cases he

lemma round2_hundred : round2 100 = 100 := by
  have hf : ⌊(10000 : ℚ)⌋ = 10000 := by norm_num
  unfold round2 roundHalfEven
  rw [show ((100 : ℚ) * 100) = 10000 by norm_num, hf]
  norm_num

/-- Witness for the rate theorem: a BCS run with one numerator member
(rate 100), CDC and CBP runs with one gap member each (rate 0), and the
CDC / CBP no-patients error dicts. -/
theorem measure_rate_witness :
    ((HEDISBreastCancerScreening.init 0).evaluate_patients
        ⟨fun _ => none, fun _ => none,
         fun _ => some [⟨"c1", DateVal.valid (-100), [["77067"]]⟩]⟩
        [⟨"p1", "female", DateVal.valid (-21900)⟩]).rate = 100
    ∧ ((HEDISDiabetesCare.init 0).evaluate_result
        ⟨fun _ => none, fun _ => some [["E11.9"]], fun _ => none⟩ 1000
        [⟨"p1", "female", DateVal.valid (-10950)⟩]).rate = 0
    ∧ ((HEDISControllingBloodPressure.init 0).evaluate_result
        ⟨fun _ => none, fun _ => some [["I10"]], fun _ => none⟩ 1000
        [⟨"p1", "female", DateVal.valid (-10950)⟩]).rate = 0
    ∧ ((⟨0, 0, 0⟩ : NoPatientsResult).denominator = 0
        ∧ (⟨0, 0, 0⟩ : NoPatientsResult).rate = 0)
    ∧ ((⟨0, 0, 0⟩ : NoPatientsResult).denominator = 0
        ∧ (⟨0, 0, 0⟩ : NoPatientsResult).rate = 0) := by
  have h := measure_rate_guarded_and_bounded
  refine ⟨?_, ?_, ?_, ?_, ?_⟩
  · have h1 := (h.1 (HEDISBreastCancerScreening.init 0)
      ⟨fun _ => none, fun _ => none,
       fun _ => some [⟨"c1", DateVal.valid (-100), [["77067"]]⟩]⟩
      [⟨"p1", "female", DateVal.valid (-21900)⟩]).2.1 (by decide)
    rw [h1,
      show ((HEDISBreastCancerScreening.init 0).evaluate_patients
        ⟨fun _ => none, fun _ => none,
         fun _ => some [⟨"c1", DateVal.valid (-100), [["77067"]]⟩]⟩
        [⟨"p1", "female", DateVal.valid (-21900)⟩]).numerator = 1 from by decide,
      show ((HEDISBreastCancerScreening.init 0).evaluate_patients
        ⟨fun _ => none, fun _ => none,
         fun _ => some [⟨"c1", DateVal.valid (-100), [["77067"]]⟩]⟩
        [⟨"p1", "female", DateVal.valid (-21900)⟩]).denominator = 1 from by decide,
      show (((1 : Nat) : ℚ) / ((1 : Nat) : ℚ) * 100) = 100 by norm_num,
      round2_hundred]
  · have h1 := (h.2.1 (HEDISDiabetesCare.init 0)
      ⟨fun _ => none, fun _ => some [["E11.9"]], fun _ => none⟩ 1000
      [⟨"p1", "female", DateVal.valid (-10950)⟩]).2.1 (by decide)
    rw [h1,
      show ((HEDISDiabetesCare.init 0).evaluate_result
        ⟨fun _ => none, fun _ => some [["E11.9"]], fun _ => none⟩ 1000
        [⟨"p1", "female", DateVal.valid (-10950)⟩]).numerator = 0 from by decide,
      show ((HEDISDiabetesCare.init 0).evaluate_result
        ⟨fun _ => none, fun _ => some [["E11.9"]], fun _ => none⟩ 1000
        [⟨"p1", "female", DateVal.valid (-10950)⟩]).denominator = 1 from by decide,
      show (((0 : Nat) : ℚ) / ((1 : Nat) : ℚ) * 100) = 0 by norm_num,
      round2_zero]
  · have h1 := (h.2.2.2.1 (HEDISControllingBloodPressure.init 0)
      ⟨fun _ => none, fun _ => some [["I10"]], fun _ => none⟩ 1000
      [⟨"p1", "female", DateVal.valid (-10950)⟩]).2.1 (by decide)
    rw [h1,
      show ((HEDISControllingBloodPressure.init 0).evaluate_result
        ⟨fun _ => none, fun _ => some [["I10"]], fun _ => none⟩ 1000
        [⟨"p1", "female", DateVal.valid (-10950)⟩]).numerator = 0 from by decide,
      show ((HEDISControllingBloodPressure.init 0).evaluate_result
        ⟨fun _ => none, fun _ => some [["I10"]], fun _ => none⟩ 1000
        [⟨"p1", "female", DateVal.valid (-10950)⟩]).denominator = 1 from by decide,
      show (((0 : Nat) : ℚ) / ((1 : Nat) : ℚ) * 100) = 0 by norm_num,
      round2_zero]
  · exact h.2.2.1 (HEDISDiabetesCare.init 0)
      ⟨fun _ => none, fun _ => none, fun _ => none⟩ 1000 [] ⟨0, 0, 0⟩ rfl
  · exact h.2.2.2.2 (HEDISControllingBloodPressure.init 0)
      ⟨fun _ => none, fun _ => none, fun _ => none⟩ 1000 [] ⟨0, 0, 0⟩ rfl

/-- C3: COL `evaluate_patients` returns one fixed result for every
repository state (and hence for every FHIR base URL): denominator 1000,
numerator 896, rate 89.6, empty sampled lists, gap count 104, sample
size 1000 — the per-patient code after the early `return` never runs, so
it is not part of the function's behaviour. -/
theorem col_evaluate_constant
    (self : HEDISColorectalCancerScreening) (repo repo2 : Repo) :
    self.evaluate_patients repo = self.evaluate_patients repo2
    ∧ (self.evaluate_patients repo).denominator = 1000
    ∧ (self.evaluate_patients repo).numerator = 896
    ∧ (self.evaluate_patients repo).rate = 448/5
    ∧ (self.evaluate_patients repo).numerator_patients = []
    ∧ (self.evaluate_patients repo).gap_in_care = []
    ∧ (self.evaluate_patients repo).gap_in_care_count = 104
    ∧ (self.evaluate_patients repo).sample_size = 1000 :=
  ⟨rfl, rfl, rfl, rfl, rfl, rfl, rfl, rfl⟩

/-- C9: running the BCS evaluation twice against the same unchanged data
snapshot — the same measurement-period bounds, the same repository state
and the same fetched patients — yields identical counts for initial
population, denominator, numerator, exclusions and gap-in-care. -/
theorem bcs_evaluate_idempotent
    (s1 s2 : HEDISBreastCancerScreening) (r1 r2 : Repo)
    (ps1 ps2 : List Patient)
    (hs : s1 = s2) (hr : r1 = r2) (hp : ps1 = ps2) :
    (s1.evaluate_patients r1 ps1).initial_population
      = (s2.evaluate_patients r2 ps2).initial_population
    ∧ (s1.evaluate_patients r1 ps1).denominator
      = (s2.evaluate_patients r2 ps2).denominator
    ∧ (s1.evaluate_patients r1 ps1).numerator
      = (s2.evaluate_patients r2 ps2).numerator
    ∧ (s1.evaluate_patients r1 ps1).exclusions
      = (s2.evaluate_patients r2 ps2).exclusions
    ∧ (s1.evaluate_patients r1 ps1).gap_in_care_count
      = (s2.evaluate_patients r2 ps2).gap_in_care_count := by
  subst hs; subst hr; subst hp
  exact ⟨rfl, rfl, rfl, rfl, rfl⟩

/-- Witness for idempotence at a concrete snapshot. -/
theorem bcs_evaluate_idempotent_witness :
    ((HEDISBreastCancerScreening.init 0).evaluate_patients
        ⟨fun _ => none, fun _ => none,
         fun _ => some [⟨"c1", DateVal.valid (-100), [["77067"]]⟩]⟩
        [⟨"p1", "female", DateVal.valid (-21900)⟩]).initial_population
      = ((HEDISBreastCancerScreening.init 0).evaluate_patients
        ⟨fun _ => none, fun _ => none,
         fun _ => some [⟨"c1", DateVal.valid (-100), [["77067"]]⟩]⟩
        [⟨"p1", "female", DateVal.valid (-21900)⟩]).initial_population
    ∧ ((HEDISBreastCancerScreening.init 0).evaluate_patients
        ⟨fun _ => none, fun _ => none,
         fun _ => some [⟨"c1", DateVal.valid (-100), [["77067"]]⟩]⟩
        [⟨"p1", "female", DateVal.valid (-21900)⟩]).denominator
      = ((HEDISBreastCancerScreening.init 0).evaluate_patients
        ⟨fun _ => none, fun _ => none,
         fun _ => some [⟨"c1", DateVal.valid (-100), [["77067"]]⟩]⟩
        [⟨"p1", "female", DateVal.valid (-21900)⟩]).denominator
    ∧ ((HEDISBreastCancerScreening.init 0).evaluate_patients
        ⟨fun _ => none, fun _ => none,
         fun _ => some [⟨"c1", DateVal.valid (-100), [["77067"]]⟩]⟩
        [⟨"p1", "female", DateVal.valid (-21900)⟩]).numerator
      = ((HEDISBreastCancerScreening.init 0).evaluate_patients
        ⟨fun _ => none, fun _ => none,
         fun _ => some [⟨"c1", DateVal.valid (-100), [["77067"]]⟩]⟩
        [⟨"p1", "female", DateVal.valid (-21900)⟩]).numerator
    ∧ ((HEDISBreastCancerScreening.init 0).evaluate_patients
        ⟨fun _ => none, fun _ => none,
         fun _ => some [⟨"c1", DateVal.valid (-100), [["77067"]]⟩]⟩
        [⟨"p1", "female", DateVal.valid (-21900)⟩]).exclusions
      = ((HEDISBreastCancerScreening.init 0).evaluate_patients
        ⟨fun _ => none, fun _ => none,
         fun _ => some [⟨"c1", DateVal.valid (-100), [["77067"]]⟩]⟩
        [⟨"p1", "female", DateVal.valid (-21900)⟩]).exclusions
    ∧ ((HEDISBreastCancerScreening.init 0).evaluate_patients
        ⟨fun _ => none, fun _ => none,
         fun _ => some [⟨"c1", DateVal.valid (-100), [["77067"]]⟩]⟩
        [⟨"p1", "female", DateVal.valid (-21900)⟩]).gap_in_care_count
      = ((HEDISBreastCancerScreening.init 0).evaluate_patients
        ⟨fun _ => none, fun _ => none,
         fun _ => some [⟨"c1", DateVal.valid (-100), [["77067"]]⟩]⟩
        [⟨"p1", "female", DateVal.valid (-21900)⟩]).gap_in_care_count :=
  bcs_evaluate_idempotent _ _ _ _ _ _ rfl rfl rfl

/-- Once the CDC loop's denominator cap is reached, the loop returns its
accumulator unchanged. -/
lemma cdc_loop_stop (self : HEDISDiabetesCare) (repo : Repo)
    (max_patients : Nat) (acc : CDCBuckets) (ps : List Patient)
    (h : max_patients ≤ acc.denominator.length) :
    self.evaluate_loop repo max_patients acc ps = acc := by
  cases ps with
  | nil => rfl
  | cons p rest => simp [HEDISDiabetesCare.evaluate_loop, h]

/-- Once the CBP loop's denominator cap is reached, the loop returns its
accumulator unchanged. -/
lemma cbp_loop_stop (self : HEDISControllingBloodPressure) (repo : Repo)
    (max_patients : Nat) (acc : CBPBuckets) (ps : List Patient)
    (h : max_patients ≤ acc.denominator.length) :
    self.evaluate_loop repo max_patients acc ps = acc := by
  cases ps with
  | nil => rfl
  | cons p rest => simp [HEDISControllingBloodPressure.evaluate_loop, h]

/-- C10: a patient whose `birthDate` is missing/empty or unparseable is
rejected by `is_in_initial_population` in all four measure classes — the
missing case is rejected directly and the unparseable case computes age
0, below every measure's minimum age — and such a member contributes to
no bucket of the BCS, CDC or CBP member loops. -/
theorem bad_birthdate_never_counted
    (b : DateVal) (hb : b = DateVal.missing ∨ b = DateVal.malformed)
    (p : Patient) (hp : p.birthDate = b)
    (sb : HEDISBreastCancerScreening) (sl : HEDISColorectalCancerScreening)
    (sd : HEDISDiabetesCare) (sc : HEDISControllingBloodPressure)
    (repo : Repo) (pid : String) (max_patients : Nat)
    (accd : CDCBuckets) (accc : CBPBuckets) (ps : List Patient) :
    get_patient_age sb.measurementEnd b = 0
    ∧ sb.is_in_initial_population p = false
    ∧ sl.is_in_initial_population p = false
    ∧ sd.is_in_initial_population repo p pid = false
    ∧ sc.is_in_initial_population repo p pid = false
    ∧ sb.evaluate_loop repo (p :: ps) = sb.evaluate_loop repo ps
    ∧ sd.evaluate_loop repo max_patients accd (p :: ps)
        = sd.evaluate_loop repo max_patients accd ps
    ∧ sc.evaluate_loop repo max_patients accc (p :: ps)
        = sc.evaluate_loop repo max_patients accc ps := by
  have hage : ∀ e : Int, get_patient_age e b = 0 := by
    intro e; rcases hb with h | h <;> subst h <;> rfl
  have hbcs : sb.is_in_initial_population p = false := by
    unfold HEDISBreastCancerScreening.is_in_initial_population
    rw [hp]
    rcases hb with h | h <;> subst h <;> split_ifs with h1 h2 <;>
      simp_all [get_patient_age]
  have hcol : sl.is_in_initial_population p = false := by
    unfold HEDISColorectalCancerScreening.is_in_initial_population
    rw [hp]
    rcases hb with h | h <;> subst h <;> split_ifs with h1 <;>
      simp_all [get_patient_age]
  have hcdc : ∀ pid2 : String, sd.is_in_initial_population repo p pid2 = false := by
    intro pid2
    unfold HEDISDiabetesCare.is_in_initial_population
    rw [hp]
    rcases hb with h | h <;> subst h <;> split_ifs <;>
      simp_all [get_patient_age]
  have hcbp : ∀ pid2 : String, sc.is_in_initial_population repo p pid2 = false := by
    intro pid2
    unfold HEDISControllingBloodPressure.is_in_initial_population
    rw [hp]
    rcases hb with h | h <;> subst h <;> split_ifs <;>
      simp_all [get_patient_age]
  refine ⟨hage sb.measurementEnd, hbcs, hcol, hcdc pid, hcbp pid, ?_, ?_, ?_⟩
  · simp [HEDISBreastCancerScreening.evaluate_loop, hbcs]
  · by_cases hstop : max_patients ≤ accd.denominator.length
    · rw [cdc_loop_stop sd repo max_patients accd ps hstop]
      simp [HEDISDiabetesCare.evaluate_loop, hstop]
    · simp [HEDISDiabetesCare.evaluate_loop, hstop, hcdc p.id]
  · by_cases hstop : max_patients ≤ accc.denominator.length
    · rw [cbp_loop_stop sc repo max_patients accc ps hstop]
      simp [HEDISControllingBloodPressure.evaluate_loop, hstop]
    · simp [HEDISControllingBloodPressure.evaluate_loop, hstop, hcbp p.id]

/-- Witness for the bad-birth-date theorem at a concrete missing-date
patient. -/
theorem bad_birthdate_never_counted_witness :
    get_patient_age 0 DateVal.missing = 0
    ∧ (HEDISBreastCancerScreening.init 0).is_in_initial_population
        ⟨"p1", "female", DateVal.missing⟩ = false
    ∧ (HEDISColorectalCancerScreening.init 0).is_in_initial_population
        ⟨"p1", "female", DateVal.missing⟩ = false
    ∧ (HEDISDiabetesCare.init 0).is_in_initial_population
        ⟨fun _ => none, fun _ => none, fun _ => none⟩
        ⟨"p1", "female", DateVal.missing⟩ "p1" = false
    ∧ (HEDISControllingBloodPressure.init 0).is_in_initial_population
        ⟨fun _ => none, fun _ => none, fun _ => none⟩
        ⟨"p1", "female", DateVal.missing⟩ "p1" = false
    ∧ (HEDISBreastCancerScreening.init 0).evaluate_loop
        ⟨fun _ => none, fun _ => none, fun _ => none⟩
        (⟨"p1", "female", DateVal.missing⟩ :: [])
      = (HEDISBreastCancerScreening.init 0).evaluate_loop
        ⟨fun _ => none, fun _ => none, fun _ => none⟩ []
    ∧ (HEDISDiabetesCare.init 0).evaluate_loop
        ⟨fun _ => none, fun _ => none, fun _ => none⟩ 1000 ⟨[], [], []⟩
        (⟨"p1", "female", DateVal.missing⟩ :: [])
      = (HEDISDiabetesCare.init 0).evaluate_loop
        ⟨fun _ => none, fun _ => none, fun _ => none⟩ 1000 ⟨[], [], []⟩ []
    ∧ (HEDISControllingBloodPressure.init 0).evaluate_loop
        ⟨fun _ => none, fun _ => none, fun _ => none⟩ 1000 ⟨[], [], []⟩
        (⟨"p1", "female", DateVal.missing⟩ :: [])
      = (HEDISControllingBloodPressure.init 0).evaluate_loop
        ⟨fun _ => none, fun _ => none, fun _ => none⟩ 1000 ⟨[], [], []⟩ [] :=
  bad_birthdate_never_counted DateVal.missing (Or.inl rfl)
    ⟨"p1", "female", DateVal.missing⟩ rfl _ _ _ _ _ "p1" 1000 _ _ []

/-- C8: a claim whose `created` date is absent or unparseable is skipped
by the evidence matchers — it never yields a qualifying match, the scan
does not fail, and the surrounding claims are processed exactly as if
the bad claim were not there (shown for the BCS mammogram scan and the
COL screening scan, the two matchers the claim cites). -/
theorem bad_date_claim_skipped
    (c : ClaimRes)
    (hc : c.created = DateVal.missing ∨ c.created = DateVal.malformed) :
    (∀ (self : HEDISBreastCancerScreening) (patient_id : String)
        (pre post : List ClaimRes),
      bcs_scan_claims self patient_id (pre ++ c :: post)
        = bcs_scan_claims self patient_id (pre ++ post))
    ∧ (∀ (self : HEDISColorectalCancerScreening) (pre post : List ClaimRes),
      col_scan_claims self (pre ++ c :: post)
        = col_scan_claims self (pre ++ post)) := by
  constructor
  · intro self patient_id pre post
    unfold bcs_scan_claims
    rw [List.flatMap_append, List.flatMap_append, List.flatMap_cons]
    rcases hc with h | h <;>
      (rw [h]) <;> cases hcm : claim_has_mammo_code c <;> simp
  · intro self pre post
    unfold col_scan_claims
    rw [List.flatMap_append, List.flatMap_append, List.flatMap_cons]
    have hz : c.items.flatMap (fun item =>
        item.flatMap (fun code => col_code_matches self c code)) = [] := by
      rcases hc with h | h <;>
        simp [col_code_matches, h, List.flatMap_eq_nil_iff]
    rw [hz]
    simp

/-- Witness for the skipped-claim theorem at a concrete malformed-date
claim carrying a mammography and a colonoscopy code. -/
theorem bad_date_claim_skipped_witness :
    bcs_scan_claims (HEDISBreastCancerScreening.init 0) "Patient/p1"
        ([⟨"a", DateVal.valid (-5), [["77067"]]⟩]
          ++ ⟨"x", DateVal.malformed, [["77067", "45378"]]⟩
            :: [⟨"b", DateVal.valid (-7), [["77067"]]⟩])
      = bcs_scan_claims (HEDISBreastCancerScreening.init 0) "Patient/p1"
        ([⟨"a", DateVal.valid (-5), [["77067"]]⟩]
          ++ [⟨"b", DateVal.valid (-7), [["77067"]]⟩])
    ∧ col_scan_claims (HEDISColorectalCancerScreening.init 0)
        ([⟨"a", DateVal.valid (-5), [["45378"]]⟩]
          ++ ⟨"x", DateVal.malformed, [["77067", "45378"]]⟩
            :: [⟨"b", DateVal.valid (-7), [["45378"]]⟩])
      = col_scan_claims (HEDISColorectalCancerScreening.init 0)
        ([⟨"a", DateVal.valid (-5), [["45378"]]⟩]
          ++ [⟨"b", DateVal.valid (-7), [["45378"]]⟩]) :=
  ⟨(bad_date_claim_skipped ⟨"x", DateVal.malformed, [["77067", "45378"]]⟩
      (Or.inr rfl)).1 (HEDISBreastCancerScreening.init 0) "Patient/p1"
      [⟨"a", DateVal.valid (-5), [["77067"]]⟩]
      [⟨"b", DateVal.valid (-7), [["77067"]]⟩],
   (bad_date_claim_skipped ⟨"x", DateVal.malformed, [["77067", "45378"]]⟩
      (Or.inr rfl)).2 (HEDISColorectalCancerScreening.init 0)
      [⟨"a", DateVal.valid (-5), [["45378"]]⟩]
      [⟨"b", DateVal.valid (-7), [["45378"]]⟩]⟩

/-- Bridge between the Boolean `List.contains` used by the embedded code
and propositional membership. -/
lemma contains_iff_mem {l : List String} {a : String} :
    l.contains a = true ↔ a ∈ l := by
  simp [List.contains]

/-- Characterisation of the per-coding match of the COL screening scan:
it produces an entry exactly when the claim's date parses and the code
falls in one of the two evidence code-sets with the date inside that
set's own window. -/
lemma col_code_matches_mem_iff (self : HEDISColorectalCancerScreening)
    (claim : ClaimRes) (code : String) :
    (∃ y, y ∈ col_code_matches self claim code) ↔
      ∃ t : Int, claim.created = DateVal.valid t
        ∧ ((code ∈ COLONOSCOPY_CODES
              ∧ self.colonoscopyStart ≤ t ∧ t ≤ self.measurementEnd)
          ∨ ((code ∈ FIT_DNA_CODES ∨ code ∈ FECAL_OCCULT_BLOOD_CODES)
              ∧ self.fitStart ≤ t ∧ t ≤ self.measurementEnd)) := by
  unfold col_code_matches
  cases hcr : claim.created with
  | missing => simp
  | malformed => simp
  | valid t =>
    dsimp only
    simp only [contains_iff_mem]
    constructor
    · rintro ⟨y, hy⟩
      refine ⟨t, rfl, ?_⟩
      by_cases h1 : code ∈ COLONOSCOPY_CODES
          ∧ self.colonoscopyStart ≤ t ∧ t ≤ self.measurementEnd
      · exact Or.inl h1
      · rw [if_neg h1] at hy
        by_cases h2 : (code ∈ FIT_DNA_CODES ∨ code ∈ FECAL_OCCULT_BLOOD_CODES)
            ∧ self.fitStart ≤ t ∧ t ≤ self.measurementEnd
        · exact Or.inr h2
        · rw [if_neg h2] at hy
          simp at hy
    · rintro ⟨t2, ht2, hcase⟩
      obtain rfl : t = t2 := by
        simpa using ht2
      by_cases h1 : code ∈ COLONOSCOPY_CODES
          ∧ self.colonoscopyStart ≤ t ∧ t ≤ self.measurementEnd
      · rw [if_pos h1]
        exact ⟨_, List.mem_singleton.mpr rfl⟩
      · rw [if_neg h1]
        rcases hcase with hc | hc
        · exact absurd hc h1
        · rw [if_pos hc]
          exact ⟨_, List.mem_singleton.mpr rfl⟩

/-- C7: the COL evidence matcher accepts a member's fetched claims
exactly when some claim carries a coding whose code is in one of the
measure's evidence code-sets with the claim's parsed date inside that
code-set's own lookback window ending at measurement end — a 10-year
window for colonoscopy codes and a 1-year window for FIT / FIT-DNA
codes. -/
theorem col_screening_iff_code_in_window (now : Int) (repo : Repo)
    (patient_id : String) (l : List ClaimRes)
    (hq : repo.claims (stripPatientRef patient_id) = some l) :
    ((HEDISColorectalCancerScreening.init now).has_qualifying_screening
        repo patient_id).1 = true
      ↔ ∃ claim ∈ l, ∃ item ∈ claim.items, ∃ code ∈ item, ∃ t : Int,
          claim.created = DateVal.valid t
          ∧ ((code ∈ COLONOSCOPY_CODES ∧ now - 3650 ≤ t ∧ t ≤ now)
            ∨ ((code ∈ FIT_DNA_CODES ∨ code ∈ FECAL_OCCULT_BLOOD_CODES)
              ∧ now - 365 ≤ t ∧ t ≤ now)) := by
  unfold HEDISColorectalCancerScreening.has_qualifying_screening
  rw [hq]
  simp only [decide_eq_true_eq]
  rw [List.length_pos_iff_exists_mem]
  unfold col_scan_claims
  constructor
  · rintro ⟨y, hy⟩
    rw [List.mem_flatMap] at hy
    obtain ⟨claim, hclaim, hy⟩ := hy
    rw [List.mem_flatMap] at hy
    obtain ⟨item, hitem, hy⟩ := hy
    rw [List.mem_flatMap] at hy
    obtain ⟨code, hcode, hy⟩ := hy
    obtain ⟨t, ht, hcase⟩ :=
      (col_code_matches_mem_iff (HEDISColorectalCancerScreening.init now)
        claim code).mp ⟨y, hy⟩
    exact ⟨claim, hclaim, item, hitem, code, hcode, t, ht, hcase⟩
  · rintro ⟨claim, hclaim, item, hitem, code, hcode, t, ht, hcase⟩
    obtain ⟨y, hy⟩ :=
      (col_code_matches_mem_iff (HEDISColorectalCancerScreening.init now)
        claim code).mpr ⟨t, ht, hcase⟩
    exact ⟨y, List.mem_flatMap.mpr ⟨claim, hclaim,
      List.mem_flatMap.mpr ⟨item, hitem,
        List.mem_flatMap.mpr ⟨code, hcode, hy⟩⟩⟩⟩

/-- Witness for the COL matcher characterisation: a member whose only
claim carries a colonoscopy code dated 9 years (3285 days) before
measurement end, with no FIT claim, has qualifying evidence through the
colonoscopy 10-year window. -/
theorem col_screening_iff_code_in_window_witness :
    ((HEDISColorectalCancerScreening.init 0).has_qualifying_screening
        ⟨fun _ => none, fun _ => none,
         fun _ => some [⟨"c9", DateVal.valid (-3285), [["45378"]]⟩]⟩
        "Patient/p1").1 = true :=
  (col_screening_iff_code_in_window 0
      ⟨fun _ => none, fun _ => none,
       fun _ => some [⟨"c9", DateVal.valid (-3285), [["45378"]]⟩]⟩
      "Patient/p1" [⟨"c9", DateVal.valid (-3285), [["45378"]]⟩] rfl).mpr
    ⟨⟨"c9", DateVal.valid (-3285), [["45378"]]⟩, List.mem_singleton.mpr rfl,
      ["45378"], List.mem_singleton.mpr rfl,
      "45378", List.mem_singleton.mpr rfl,
      -3285, rfl, Or.inl ⟨by decide, by decide, by decide⟩⟩

/-- C5 counterexample: two recorded conditions carrying the same single
unilateral code `Z90.11` make `has_exclusion` return true, while the
spec's distinct-match reading of the partial-exclusion rule returns
false on the same conditions. -/
theorem bcs_exclusion_same_code_counterexample :
    (HEDISBreastCancerScreening.init 0).has_exclusion
        ⟨fun _ => some [["Z90.11"], ["Z90.11"]], fun _ => none, fun _ => none⟩
        "Patient/p1" = true
    ∧ has_exclusion_distinct_spec [["Z90.11"], ["Z90.11"]] = false :=
  ⟨by decide, by decide⟩

/-- C5 (amended): `has_exclusion` returns true iff the member's active
conditions carry at least one bilateral-mastectomy code or at least two
codings with unilateral-mastectomy codes counted with multiplicity — in
particular two conditions with the same single unilateral code do count
as two matches. -/
theorem bcs_has_exclusion_iff
    (self : HEDISBreastCancerScreening) (repo : Repo) (patient_id : String)
    (conds : List ConditionCodes)
    (hq : repo.activeConditions patient_id = some conds) :
    self.has_exclusion repo patient_id = true
      ↔ ((∃ code ∈ conds.flatMap id, code ∈ BILATERAL_MASTECTOMY_CODES)
        ∨ 2 ≤ unilateral_matches conds) := by
  unfold HEDISBreastCancerScreening.has_exclusion
  rw [hq]
  simp only [Bool.or_eq_true, decide_eq_true_eq]
  apply or_congr
  · show 0 < bilateral_matches conds ↔ _
    unfold bilateral_matches
    rw [List.countP_pos_iff]
    simp only [contains_iff_mem]
  · exact Iff.rfl

/-- Witness for the amended exclusion rule: one bilateral code excludes,
applied through the iff at a concrete repository. -/
theorem bcs_has_exclusion_iff_witness :
    (HEDISBreastCancerScreening.init 0).has_exclusion
        ⟨fun _ => some [["Z90.13"]], fun _ => none, fun _ => none⟩
        "Patient/p1" = true :=
  (bcs_has_exclusion_iff (HEDISBreastCancerScreening.init 0)
      ⟨fun _ => some [["Z90.13"]], fun _ => none, fun _ => none⟩
      "Patient/p1" [["Z90.13"]] rfl).mpr
    (Or.inl ⟨"Z90.13", by decide, by decide⟩)

/-- C2 counterexample: with a repository whose per-member condition and
claim lookups both fail, an eligible member is still counted — she
enters the denominator (the failed exclusion lookup is treated as not
excluded) and the gap-in-care bucket (the failed evidence lookup is
treated as no evidence), instead of being removed from all counts and
reported separately. -/
theorem bcs_lookup_failure_counterexample :
    ((HEDISBreastCancerScreening.init 0).evaluate_patients
        ⟨fun _ => none, fun _ => none, fun _ => none⟩
        [⟨"p1", "female", DateVal.valid (-21900)⟩]).denominator = 1
    ∧ ((HEDISBreastCancerScreening.init 0).evaluate_patients
        ⟨fun _ => none, fun _ => none, fun _ => none⟩
        [⟨"p1", "female", DateVal.valid (-21900)⟩]).gap_in_care_count = 1
    ∧ ((HEDISBreastCancerScreening.init 0).evaluate_patients
        ⟨fun _ => none, fun _ => none, fun _ => none⟩
        [⟨"p1", "female", DateVal.valid (-21900)⟩]).exclusions = 0 :=
  ⟨by decide, by decide, by decide⟩

/-- C2 (amended): a failed per-member lookup is silently treated as "no
data" rather than removing the member from the counts: a failed
conditions query makes `has_exclusion` return false, so the member
proceeds into the denominator as non-excluded, and a failed claims query
makes `has_qualifying_mammogram` report no evidence, so the member is
counted as gap-in-care; no separate failure count is produced. -/
theorem bcs_lookup_failure_is_no_evidence
    (self : HEDISBreastCancerScreening) (repo : Repo) (patient_id : String) :
    (repo.activeConditions patient_id = none →
      self.has_exclusion repo patient_id = false)
    ∧ (repo.claims patient_id = none →
      self.has_qualifying_mammogram repo patient_id = (false, [])) := by
  constructor
  · intro h
    unfold HEDISBreastCancerScreening.has_exclusion
    rw [h]
  · intro h
    unfold HEDISBreastCancerScreening.has_qualifying_mammogram
    rw [h]

/-- Witness for the failure-as-no-evidence theorem at a concrete failing
repository. -/
theorem bcs_lookup_failure_is_no_evidence_witness :
    (HEDISBreastCancerScreening.init 0).has_exclusion
        ⟨fun _ => none, fun _ => none, fun _ => none⟩ "Patient/p1" = false
    ∧ (HEDISBreastCancerScreening.init 0).has_qualifying_mammogram
        ⟨fun _ => none, fun _ => none, fun _ => none⟩ "Patient/p1"
      = (false, []) :=
  ⟨(bcs_lookup_failure_is_no_evidence (HEDISBreastCancerScreening.init 0)
      ⟨fun _ => none, fun _ => none, fun _ => none⟩ "Patient/p1").1 rfl,
   (bcs_lookup_failure_is_no_evidence (HEDISBreastCancerScreening.init 0)
      ⟨fun _ => none, fun _ => none, fun _ => none⟩ "Patient/p1").2 rfl⟩

/-- C4 counterexample: the COL result dict lacks the `exclusions` key
and its `measurement_period` lacks the `start` key; the CDC and CBP
result dicts also lack `exclusions`. -/
theorem result_keys_counterexample :
    col_result_keys.contains "exclusions" = false
    ∧ col_period_keys.contains "start" = false
    ∧ cdc_result_keys.contains "exclusions" = false
    ∧ cbp_result_keys.contains "exclusions" = false :=
  ⟨by decide, by decide, by decide, by decide⟩

/-- C4 (amended): the BCS result contains every stable key including
`exclusions`, with `start` and `end` period keys; the COL, CDC and CBP
results contain every stable key except `exclusions`; CDC and CBP keep
`start` and `end` period keys, while COL reports `colonoscopy_lookback`,
`fit_lookback` and `end` instead. -/
theorem result_keys_amended :
    required_result_keys.all (fun k => bcs_result_keys.contains k) = true
    ∧ bcs_period_keys.contains "start" = true
    ∧ bcs_period_keys.contains "end" = true
    ∧ (required_result_keys.filter (fun k => !(k == "exclusions"))).all
        (fun k => col_result_keys.contains k) = true
    ∧ (required_result_keys.filter (fun k => !(k == "exclusions"))).all
        (fun k => cdc_result_keys.contains k) = true
    ∧ (required_result_keys.filter (fun k => !(k == "exclusions"))).all
        (fun k => cbp_result_keys.contains k) = true
    ∧ cdc_period_keys.contains "start" = true
    ∧ cdc_period_keys.contains "end" = true
    ∧ cbp_period_keys.contains "start" = true
    ∧ cbp_period_keys.contains "end" = true
    ∧ col_period_keys.contains "colonoscopy_lookback" = true
    ∧ col_period_keys.contains "fit_lookback" = true
    ∧ col_period_keys.contains "end" = true := by
  refine ⟨?_, ?_, ?_, ?_, ?_, ?_, ?_, ?_, ?_, ?_, ?_, ?_, ?_⟩ <;> decide
